import Mathlib

/-
Verification development for the ticket-classification service
(`app/services/ai_service.py`, `app/services/supabase_service.py`,
`app/routers/tickets.py`, `app/models.py`).

Modelling conventions:
* Python strings are modelled as `List Char` (`Str`).  `str.lower()` is
  modelled character-wise with `Char.toLower` (exact on ASCII; the keyword
  lists in the source are already lower-case).
* Python floats are modelled as exact rationals (`ℚ`); `round(x, 3)` is
  modelled as exact decimal rounding to a multiple of 1/1000
  (`round3`).  Float representation error and the half-to-even tie rule
  are below the granularity of every statement proved here.
* Wall-clock timing fields (`processing_time_ms`) are modelled as 0;
  no property proved here mentions them.
* External collaborators (the transformers sentiment pipeline, the Groq
  LLM transport, the Supabase client) are inputs of the modelled
  functions: `Option`-valued outcomes where `none` models a raised
  exception.
-/

set_option maxRecDepth 10000

namespace TicketAI

/-- Python strings, modelled as lists of characters. -/
abbrev Str := List Char

/-- Model of `str.lower()` (character-wise; exact on ASCII input). -/
def lower (s : Str) : Str := s.map Char.toLower

/-- Helper for the Python substring test: does `p` start `s`? -/
def startsWithSeq : Str → Str → Bool
  | [], _ => true
  | _ :: _, [] => false
  | a :: as, b :: bs => a == b && startsWithSeq as bs

/-- Model of the Python membership test `needle in hay` on strings:
`needle` occurs contiguously somewhere in `hay`. -/
def containsSeqB (needle : Str) : Str → Bool
  | [] => startsWithSeq needle []
  | c :: rest => startsWithSeq needle (c :: rest) || containsSeqB needle rest

/-- Model of `sum(1 for k in keywords if k in hay)`: the number of
keywords of the list that occur in `hay`. -/
def countMatches (keywords : List Str) (hay : Str) : ℕ :=
  (keywords.filter (fun k => containsSeqB k hay)).length

/-- Model of Python `round(x, 3)`: exact rounding to a multiple of
1/1000 (ties follow Mathlib's `round`, i.e. half away from the floor;
no statement below depends on the tie rule). -/
def round3 (q : ℚ) : ℚ := (round (q * 1000) : ℚ) / 1000

/-- The closed category taxonomy (`models.py`, `TicketCategory`;
the literal list at `ai_service.py:279`). -/
def categoryTaxonomy : List Str :=
  ["Técnico".toList, "Facturación".toList, "Comercial".toList]

/-- The closed sentiment taxonomy (`models.py`, `TicketSentiment`). -/
def sentimentTaxonomy : List Str :=
  ["Positivo".toList, "Neutral".toList, "Negativo".toList]

/-- Category validation, `ai_service.py:277-281`: a string in the
taxonomy is kept, anything else is replaced by `"Comercial"`. -/
def validateCategory (s : Str) : Str :=
  if s ∈ categoryTaxonomy then s else "Comercial".toList

/-- The keys of the `sentiment_map` dict, `ai_service.py:172-181`. -/
def sentimentMapKeys : List Str :=
  ["POSITIVE".toList, "NEUTRAL".toList, "NEGATIVE".toList,
   "5 stars".toList, "4 stars".toList, "3 stars".toList,
   "2 stars".toList, "1 star".toList]

/-- Model of `sentiment_map.get(label, "Neutral")`,
`ai_service.py:172-193`: the fixed model-label dictionary with default
`"Neutral"`. -/
def sentimentMap (label : Str) : Str :=
  if label = "POSITIVE".toList then "Positivo".toList
  else if label = "NEUTRAL".toList then "Neutral".toList
  else if label = "NEGATIVE".toList then "Negativo".toList
  else if label = "5 stars".toList then "Positivo".toList
  else if label = "4 stars".toList then "Positivo".toList
  else if label = "3 stars".toList then "Neutral".toList
  else if label = "2 stars".toList then "Negativo".toList
  else if label = "1 star".toList then "Negativo".toList
  else "Neutral".toList

/-- One `(label, score)` entry of the sentiment pipeline's output
(`ai_service.py:185-190`). -/
structure ScoredLabel where
  label : Str
  score : ℚ

/-- Result dictionary of `AIService.analyze_sentiment`. -/
structure SentimentResult where
  sentiment : Str
  confidence : ℚ
  reasoning : Str
  processing_time_ms : ℕ
  model : Str

/-- `positive_keywords`, `ai_service.py:229`. -/
def positiveKeywords : List Str :=
  ["excelente".toList, "genial".toList, "gracias".toList, "perfecto".toList,
   "bien".toList, "bueno".toList, "feliz".toList, "contento".toList]

/-- `negative_keywords`, `ai_service.py:230`. -/
def negativeKeywords : List Str :=
  ["problema".toList, "error".toList, "no funciona".toList, "mal".toList,
   "urgente".toList, "frustrado".toList, "malo".toList, "caído".toList]

/-- `AIService._generate_sentiment_reasoning`, `ai_service.py:222-242`.
Note the keyword lists only select a reasoning phrase; they do not feed
back into the sentiment label or the confidence. -/
def generateSentimentReasoning (text sentiment : Str) (confidence : ℚ) : Str :=
  let tl := lower text
  let foundPositive := positiveKeywords.filter (fun w => containsSeqB w tl)
  let foundNegative := negativeKeywords.filter (fun w => containsSeqB w tl)
  if sentiment = "Positivo".toList ∧ foundPositive ≠ [] then
    "Detectadas expresiones positivas: ".toList
      ++ List.intercalate (", ".toList) (foundPositive.take 2)
  else if sentiment = "Negativo".toList ∧ foundNegative ≠ [] then
    "Detectadas expresiones negativas: ".toList
      ++ List.intercalate (", ".toList) (foundNegative.take 2)
  else if (0.8 : ℚ) < confidence then
    "El tono general del mensaje indica sentimiento ".toList ++ lower sentiment
  else
    "Sentimiento ".toList ++ lower sentiment
      ++ " detectado con confianza moderada".toList

/-- The fixed dictionary returned by the `except` branch of
`analyze_sentiment`, `ai_service.py:211-220`: the sentiment-stage
fallback is a constant, independent of the input text. -/
def fallbackSentimentResult : SentimentResult :=
  { sentiment := "Neutral".toList
    confidence := 1/2
    reasoning := "No se pudo determinar el sentimiento con precisión".toList
    processing_time_ms := 0
    model := "fallback".toList }

/-- Model of Python `max(sentiments, key=lambda x: x['score'])` on a
non-empty list: the first entry with maximal score wins. -/
def maxByScore (x : ScoredLabel) (xs : List ScoredLabel) : ScoredLabel :=
  xs.foldl (fun best y => if best.score < y.score then y else best) x

/-- `AIService.analyze_sentiment`, `ai_service.py:142-220`.
`pipe` is the external transformers pipeline applied by the source to
`text[:512]`; `none` models a raised exception, and `some []` models
the `max()`-over-empty-sequence `ValueError` (both are captured by the
`except` branch).  The source's normalisation of the library's nested
output format (lines 161-169) is absorbed into `pipe`'s output type.
The model name is `settings.sentiment_model.split('/')[-1]` for the
default configured model (`config.py:33`). -/
def analyzeSentiment (pipe : Str → Option (List ScoredLabel)) (text : Str) :
    SentimentResult :=
  match pipe (text.take 512) with
  | none => fallbackSentimentResult
  | some [] => fallbackSentimentResult
  | some (x :: xs) =>
      let top := maxByScore x xs
      let mapped := sentimentMap top.label
      { sentiment := mapped
        confidence := round3 top.score
        reasoning := generateSentimentReasoning text mapped top.score
        processing_time_ms := 0
        model := "twitter-xlm-roberta-base-sentiment".toList }

/-- Modelled from the spec (4.4): the majority-vote fallback sentiment
the specification describes — "Sentiment is derived symmetrically from
separate positive/negative keyword lists: majority wins; exact tie
yields Neutral".  No such computation exists in the source; this
definition exists only to be compared against the code's behaviour. -/
def specMajoritySentiment (text : Str) : Str :=
  let tl := lower text
  let p := countMatches positiveKeywords tl
  let n := countMatches negativeKeywords tl
  if n < p then "Positivo".toList
  else if p < n then "Negativo".toList
  else "Neutral".toList

/-- JSON values, the output domain of `json.loads`. -/
inductive JVal where
  | null
  | bool (b : Bool)
  | num (q : ℚ)
  | str (s : Str)
  | arr (xs : List JVal)
  | obj (fields : List (Str × JVal))

/-- JSON insignificant whitespace. -/
def skipWs : Str → Str
  | [] => []
  | c :: cs =>
      if c = ' ' ∨ c = '\t' ∨ c = '\n' ∨ c = '\r' then skipWs cs else c :: cs

/-- Value of a run of decimal digits. -/
def digitsVal (ds : Str) : ℕ :=
  ds.foldl (fun n c => n * 10 + (c.toNat - '0'.toNat)) 0

/-- Hexadecimal digit value, for `\uXXXX` string escapes. -/
def hexVal (c : Char) : Option ℕ :=
  if '0' ≤ c ∧ c ≤ '9' then some (c.toNat - '0'.toNat)
  else if 'a' ≤ c ∧ c ≤ 'f' then some (c.toNat - 'a'.toNat + 10)
  else if 'A' ≤ c ∧ c ≤ 'F' then some (c.toNat - 'A'.toNat + 10)
  else none

/-- Single-character JSON string escapes. -/
def escapeChar (c : Char) : Option Char :=
  if c = '"' then some '"'
  else if c = '\\' then some '\\'
  else if c = '/' then some '/'
  else if c = 'b' then some (Char.ofNat 8)
  else if c = 'f' then some (Char.ofNat 12)
  else if c = 'n' then some '\n'
  else if c = 'r' then some '\r'
  else if c = 't' then some '\t'
  else none

/-- Body of a JSON string after the opening quote: returns the decoded
content and the remaining input after the closing quote.  (Surrogate
pairs and the rejection of raw control characters are not modelled.) -/
def parseStringBody : Str → Option (Str × Str)
  | [] => none
  | '"' :: rest => some ([], rest)
  | '\\' :: 'u' :: h1 :: h2 :: h3 :: h4 :: rest => do
      let a ← hexVal h1
      let b ← hexVal h2
      let c ← hexVal h3
      let d ← hexVal h4
      let (cs, r) ← parseStringBody rest
      pure (Char.ofNat (((a * 16 + b) * 16 + c) * 16 + d) :: cs, r)
  | '\\' :: e :: rest => do
      let c ← escapeChar e
      let (cs, r) ← parseStringBody rest
      pure (c :: cs, r)
  | c :: rest => do
      let (cs, r) ← parseStringBody rest
      pure (c :: cs, r)

/-- JSON number literal: optional sign, digits, optional fraction,
optional exponent, as an exact rational.  (The JSON rule forbidding
leading zeros is not modelled.) -/
def parseNum (s : Str) : Option (ℚ × Str) :=
  let (neg, s1) := match s with
    | '-' :: r => (true, r)
    | _ => (false, s)
  let (ds, s2) := List.span Char.isDigit s1
  if ds.isEmpty then none
  else
    let base : ℚ := (digitsVal ds : ℚ)
    let afterFrac : Option (ℚ × Str) :=
      match s2 with
      | '.' :: r =>
          let (fs, r2) := List.span Char.isDigit r
          if fs.isEmpty then none
          else some (base + (digitsVal fs : ℚ) / ((10 : ℚ) ^ fs.length), r2)
      | _ => some (base, s2)
    match afterFrac with
    | none => none
    | some (v, s3) =>
        let afterExp : Option (ℚ × Str) :=
          match s3 with
          | 'e' :: r | 'E' :: r =>
              let (esign, r1) := match r with
                | '+' :: r2 => (false, r2)
                | '-' :: r2 => (true, r2)
                | _ => (false, r)
              let (es, r2) := List.span Char.isDigit r1
              if es.isEmpty then none
              else if esign then some (v / (10 : ℚ) ^ digitsVal es, r2)
              else some (v * (10 : ℚ) ^ digitsVal es, r2)
          | _ => some (v, s3)
        match afterExp with
        | none => none
        | some (w, s4) => some (if neg then -w else w, s4)

mutual

/-- Recursive-descent JSON value parser (fuel-indexed model of
`json.loads`; the fuel passed by `jsonDecode` is ample for every input,
as each unit of fuel is consumed alongside input characters). -/
def parseVal : ℕ → Str → Option (JVal × Str)
  | 0, _ => none
  | Nat.succ f, s0 =>
      match skipWs s0 with
      | 't' :: 'r' :: 'u' :: 'e' :: rest => some (.bool true, rest)
      | 'f' :: 'a' :: 'l' :: 's' :: 'e' :: rest => some (.bool false, rest)
      | 'n' :: 'u' :: 'l' :: 'l' :: rest => some (.null, rest)
      | '"' :: rest =>
          (parseStringBody rest).map (fun p => (.str p.1, p.2))
      | '[' :: rest =>
          (match skipWs rest with
           | ']' :: r2 => some (.arr [], r2)
           | r2 => (parseItems f r2).map (fun p => (.arr p.1, p.2)))
      | '\x7b' :: rest =>
          (match skipWs rest with
           | '\x7d' :: r2 => some (.obj [], r2)
           | r2 => (parseMembers f r2).map (fun p => (.obj p.1, p.2)))
      | s => (parseNum s).map (fun p => (.num p.1, p.2))

/-- Comma-separated JSON array items up to the closing bracket. -/
def parseItems : ℕ → Str → Option (List JVal × Str)
  | 0, _ => none
  | Nat.succ f, s => do
      let (v, r1) ← parseVal f s
      match skipWs r1 with
      | ',' :: r2 => do
          let (vs, r3) ← parseItems f r2
          pure (v :: vs, r3)
      | ']' :: r2 => pure ([v], r2)
      | _ => none

/-- Comma-separated JSON object members up to the closing brace. -/
def parseMembers : ℕ → Str → Option (List (Str × JVal) × Str)
  | 0, _ => none
  | Nat.succ f, s =>
      match skipWs s with
      | '"' :: r0 => do
          let (key, r1) ← parseStringBody r0
          match skipWs r1 with
          | ':' :: r2 => do
              let (v, r3) ← parseVal f r2
              match skipWs r3 with
              | ',' :: r4 => do
                  let (ms, r5) ← parseMembers f r4
                  pure ((key, v) :: ms, r5)
              | '\x7d' :: r4 => pure ([(key, v)], r4)
              | _ => none
          | _ => none
      | _ => none

end

/-- Model of `json.loads`: parse one JSON value and require only
whitespace to remain. -/
def jsonDecode (s : Str) : Option JVal := do
  let (v, rest) ← parseVal (4 * s.length + 16) s
  if skipWs rest = [] then pure v else none

/-- Model of `dict.get(key)` on a decoded JSON object (later duplicate
keys overwrite earlier ones, as in a Python dict built by `json.loads`). -/
def getField (fields : List (Str × JVal)) (key : Str) : Option JVal :=
  (fields.reverse.find? (fun p => decide (p.1 = key))).map (fun p => p.2)

/-- Model of the Python builtin `float()` on the JSON value domain:
numbers and booleans convert, numeric strings are parsed (plain decimal
and exponent literals; `inf`/`nan` and underscore separators are not
modelled), and every other value raises (`none`). -/
def pyFloat : JVal → Option ℚ
  | .num q => some q
  | .bool b => some (if b then 1 else 0)
  | .str s =>
      (match parseNum (skipWs s) with
       | some (q, rest) => if skipWs rest = [] then some q else none
       | none => none)
  | _ => none

/-- Index of the first occurrence of `c` in a string, if any. -/
def firstIdx (c : Char) : Str → Option ℕ
  | [] => none
  | x :: xs => if x = c then some 0 else (firstIdx c xs).map (· + 1)

/-- Index of the last occurrence of `c` in a string, if any. -/
def lastIdx (c : Char) : Str → Option ℕ
  | [] => none
  | x :: xs =>
      match lastIdx c xs with
      | some i => some (i + 1)
      | none => if x = c then some 0 else none

/-- The opening brace character. -/
def lbrace : Char := '\x7b'

/-- The closing brace character. -/
def rbrace : Char := '\x7d'

/-- The JSON-candidate selection of `classify_category`,
`ai_service.py:270-275`: `re.search(r'\x7b.*\x7d', content, re.DOTALL)`
matches greedily from the first opening brace to the last closing brace
(a match exists exactly when some closing brace follows the first
opening brace, and then its end is the last closing brace of the whole
text); on a match the span is decoded, otherwise the entire content is
decoded. -/
def extractJsonCandidate (content : Str) : Str :=
  match firstIdx lbrace content, lastIdx rbrace content with
  | some i, some j =>
      if i < j then (content.drop i).take (j - i + 1) else content
  | _, _ => content

/-- Result dictionary of `AIService.classify_category`,
`ai_service.py:285-292`.  `category_reasoning` and `keywords` are raw
JSON values because the source passes `result.get(...)` through without
type validation. -/
structure CategoryResult where
  category : Str
  category_reasoning : JVal
  confidence : ℚ
  keywords : JVal
  processing_time_ms : ℕ
  model : Str

/-- `tech_keywords`, `ai_service.py:311`. -/
def techKeywords : List Str :=
  ["internet".toList, "conexión".toList, "no funciona".toList, "error".toList,
   "caído".toList, "lento".toList, "wifi".toList, "servidor".toList,
   "app".toList, "sistema".toList]

/-- `billing_keywords`, `ai_service.py:312`. -/
def billingKeywords : List Str :=
  ["factura".toList, "cobro".toList, "pago".toList, "precio".toList,
   "tarifa".toList, "suscripción".toList, "renovación".toList, "cargo".toList]

/-- `commercial_keywords`, `ai_service.py:313`. -/
def commercialKeywords : List Str :=
  ["información".toList, "plan".toList, "producto".toList, "servicio".toList,
   "contratar".toList, "consulta".toList, "disponible".toList]

/-- `AIService._fallback_category_classification`, `ai_service.py:302-346`.
The two parallel conditionals mirror `category = max(scores,
key=scores.get)` and `max_score = scores[category]` on the
insertion-ordered dict `[Técnico, Facturación, Comercial]`: Python's
`max` keeps the first key whose value is maximal, so ties break in
declaration order. -/
def fallbackCategoryClassification (text : Str) : CategoryResult :=
  let tl := lower text
  let techScore := countMatches techKeywords tl
  let billingScore := countMatches billingKeywords tl
  let commercialScore := countMatches commercialKeywords tl
  let category : Str :=
    if techScore < billingScore then
      (if billingScore < commercialScore then "Comercial".toList
       else "Facturación".toList)
    else
      (if techScore < commercialScore then "Comercial".toList
       else "Técnico".toList)
  let maxScore : ℕ :=
    if techScore < billingScore then
      (if billingScore < commercialScore then commercialScore else billingScore)
    else
      (if techScore < commercialScore then commercialScore else techScore)
  if maxScore = 0 then
    { category := "Comercial".toList
      category_reasoning := .str ("No se detectaron keywords específicas, clasificado como consulta comercial".toList)
      confidence := 0.5
      keywords := .arr []
      processing_time_ms := 0
      model := "fallback-keywords".toList }
  else
    { category := category
      category_reasoning := .str ("Clasificado por keywords relevantes (método de respaldo)".toList)
      confidence := min (0.6 + (maxScore : ℚ) * 0.1) 0.85
      keywords := .arr []
      processing_time_ms := 0
      model := "fallback-keywords".toList }

/-- The validation step of `classify_category`, `ai_service.py:277-292`,
applied to a decoded JSON object payload: the category is checked
against the taxonomy (a missing or non-string category can never match,
so it becomes the default `"Comercial"`), `confidence` goes through
`float(result.get("confidence", 0.8))` — `none` models the `float()`
call raising on a non-numeric value, which aborts to the fallback —
and `category_reasoning`/`keywords` take defaults when absent.  The
model identifier is the configured `settings.groq_model`
(`config.py:30`). -/
def validatePayload (fields : List (Str × JVal)) : Option CategoryResult := do
  let category : Str :=
    match getField fields ("category".toList) with
    | some (.str s) => validateCategory s
    | some _ => "Comercial".toList
    | none => "Comercial".toList
  let conf ← pyFloat ((getField fields ("confidence".toList)).getD (.num 0.8))
  pure
    { category := category
      category_reasoning :=
        (getField fields ("category_reasoning".toList)).getD
          (.str ("Clasificación automática".toList))
      confidence := conf
      keywords := (getField fields ("keywords".toList)).getD (.arr [])
      processing_time_ms := 0
      model := "llama-3.1-8b-instant".toList }

/-- The successful path of `classify_category` on the raw LLM response
content: JSON-candidate extraction, decoding, and payload validation.
`none` models any exception on this path (decode failure, a non-dict
payload on which `.get` raises, or `float()` raising), all captured by
the `except` at `ai_service.py:297`. -/
def classifyFromContent (content : Str) : Option CategoryResult :=
  match jsonDecode (extractJsonCandidate content) with
  | some (.obj fields) => validatePayload fields
  | _ => none

/-- `AIService.classify_category`, `ai_service.py:248-300`.  `llm` is
the outcome of `self.category_chain.invoke(...).content`: `none` models
a transport/timeout/quota exception of the external call; any failure
of the response-processing path likewise routes to
`_fallback_category_classification`. -/
def classifyCategory (llm : Option Str) (text : Str) : CategoryResult :=
  match llm with
  | none => fallbackCategoryClassification text
  | some content =>
      (classifyFromContent content).getD (fallbackCategoryClassification text)

/-- The combined dictionary assembled by `AIService.process_ticket`,
`ai_service.py:381-405`. -/
structure CombinedResult where
  category : Str
  category_reasoning : JVal
  sentiment : Str
  sentiment_reasoning : Str
  confidence : ℚ
  keywords : JVal
  processing_time_ms : ℕ
  models_used : List Str

/-- `AIService.process_ticket`, `ai_service.py:352-416`: sentiment
analysis, category classification, and result assembly with the blended
confidence `round(category * 0.6 + sentiment * 0.4, 3)` and
`models_used = [sentiment_model, category_model]`. -/
def processTicket (pipe : Str → Option (List ScoredLabel)) (llm : Option Str)
    (description : Str) : CombinedResult :=
  let s := analyzeSentiment pipe description
  let c := classifyCategory llm description
  { category := c.category
    category_reasoning := c.category_reasoning
    sentiment := s.sentiment
    sentiment_reasoning := s.reasoning
    confidence := round3 (c.confidence * 0.6 + s.confidence * 0.4)
    keywords := c.keywords
    processing_time_ms := 0
    models_used := [s.model, c.model] }

/-- Truncation of the `llm_model` column value,
`supabase_service.py:215-221` (the identical guard also appears at
`tickets.py:139-141` before the update call): strings longer than 200
characters become their first 197 characters plus `"..."`. -/
def truncateLlmModel (s : Str) : Str :=
  if 200 < s.length then s.take 197 ++ "...".toList else s

/-- `", ".join(analysis["models_used"])`, `tickets.py:138`. -/
def joinModelsUsed (ms : List Str) : Str :=
  List.intercalate (", ".toList) ms

/-- Outcome of `supabase_service.get_ticket(ticket_id)` as seen by the
router: a raised exception, `None` (ticket absent), or a ticket row. -/
inductive GetOutcome where
  | err
  | notFound
  | found

/-- Outcome of the `POST /tickets/process` handler: a 200 response
carrying the analysis and the persisted model string, or an
`HTTPException` with a status code. -/
inductive RouteResult where
  | ok (analysis : CombinedResult) (persistedModelStr : Str)
  | httpError (code : ℕ)

/-- Status code of a route outcome (`status.HTTP_200_OK` on success). -/
def RouteResult.status : RouteResult → ℕ
  | .ok _ _ => 200
  | .httpError c => c

/-- Pydantic validation of a `str` field against a JSON-domain value:
only a string is accepted.  (The repository runs on pydantic v2 —
`config.py` uses the v2-only `SettingsConfigDict` and `model_validator`
APIs — and v2 does not coerce JSON numbers, booleans, nulls, arrays or
objects to `str`.) -/
def pydanticStrOk : JVal → Bool
  | .str _ => true
  | _ => false

/-- Pydantic validation of a `List[str]` field against a JSON-domain
value: a list whose elements are all strings (again exact for pydantic
v2 on the JSON domain). -/
def pydanticStrListOk : JVal → Bool
  | .arr xs => xs.all (fun v => pydanticStrOk v)
  | _ => false

/-- The `AIAnalysisResult` response-model validation (`models.py:76-119`)
on the fields the pipeline does not already guarantee: `confidence`
must lie in [0, 1] (`Field(ge=0.0, le=1.0)`, `models.py:98-103`),
`category_reasoning : str` must be a string, and
`keywords : List[str]` must be a list of strings.  The `category` and
`sentiment` enum conversions and the `sentiment_reasoning : str` field
cannot fail: upstream validation makes them total. -/
def responseModelOk (r : CombinedResult) : Bool :=
  decide (0 ≤ r.confidence) && decide (r.confidence ≤ 1)
    && pydanticStrOk r.category_reasoning && pydanticStrListOk r.keywords

/-- The `process_ticket` request handler, `tickets.py:90-198`.
Failure model: a storage read error (`getT = .err`) or a storage write
error (`updateOk = false`) is an uncaught exception turned into a 500
`HTTPException` by the catch-all at `tickets.py:189-198`; an absent
ticket raises 404; the AI pipeline itself never raises.  After the
(already-performed) storage update, constructing the response model
`AIAnalysisResult` (`tickets.py:157-166`) raises a pydantic validation
error whenever `responseModelOk` fails — an out-of-range blended
confidence, a non-string `category_reasoning`, or a non-string-list
`keywords` — and the same catch-all turns that into a 500. -/
def processTicketRoute (getT : GetOutcome)
    (pipe : Str → Option (List ScoredLabel)) (llm : Option Str)
    (updateOk : Bool) (description : Str) : RouteResult :=
  match getT with
  | .err => .httpError 500
  | .notFound => .httpError 404
  | .found =>
      let analysis := processTicket pipe llm description
      let modelsStr :=
        truncateLlmModel (truncateLlmModel (joinModelsUsed analysis.models_used))
      if updateOk then
        if responseModelOk analysis then .ok analysis modelsStr
        else .httpError 500
      else .httpError 500

/-- `tech_score`, `ai_service.py:316`. -/
def techScoreOf (text : Str) : ℕ := countMatches techKeywords (lower text)

/-- `billing_score`, `ai_service.py:317`. -/
def billingScoreOf (text : Str) : ℕ := countMatches billingKeywords (lower text)

/-- `commercial_score`, `ai_service.py:318`. -/
def commercialScoreOf (text : Str) : ℕ := countMatches commercialKeywords (lower text)

/-- The maximal keyword score over the three categories
(`max_score = scores[category]`, `ai_service.py:328`). -/
def maxScoreOf (text : Str) : ℕ :=
  max (techScoreOf text) (max (billingScoreOf text) (commercialScoreOf text))

/-- Rounding is monotone. -/
theorem round_mono_q {x y : ℚ} (h : x ≤ y) : round x ≤ round y := by
  rw [round_eq, round_eq]
  exact Int.floor_le_floor (by linarith)

/-- Exact 3-decimal rounding keeps the unit interval. -/
theorem round3_mem_unit {q : ℚ} (h0 : 0 ≤ q) (h1 : q ≤ 1) :
    0 ≤ round3 q ∧ round3 q ≤ 1 := by
  have hlo : (0 : ℤ) ≤ round (q * 1000) := by
    have h := round_mono_q (x := (0 : ℚ)) (y := q * 1000) (by linarith)
    simpa [round_zero] using h
  have hhi : round (q * 1000) ≤ 1000 := by
    have h := round_mono_q (x := q * 1000) (y := ((1000 : ℤ) : ℚ)) (by push_cast; linarith)
    simpa [round_intCast] using h
  constructor
  · unfold round3
    apply div_nonneg _ (by norm_num)
    exact_mod_cast hlo
  · unfold round3
    rw [div_le_one (by norm_num)]
    exact_mod_cast hhi

/-- Lower bound of the non-degenerate fallback confidence formula. -/
theorem fallbackConfFormula_lower (m : ℕ) :
    (1/2 : ℚ) ≤ 3/5 + (m : ℚ) * (1/10) := by
  have h : (0 : ℚ) ≤ (m : ℚ) := Nat.cast_nonneg m
  nlinarith

/-- The fallback category classifier's confidence lies in [0.5, 0.85]. -/
theorem fallbackCategory_confidence_bounds (text : Str) :
    1/2 ≤ (fallbackCategoryClassification text).confidence ∧
      (fallbackCategoryClassification text).confidence ≤ 0.85 := by
  unfold fallbackCategoryClassification
  dsimp only
  split_ifs <;> constructor <;> norm_num <;>
    exact fallbackConfFormula_lower _

/-- The fallback category classifier always reports the
`"fallback-keywords"` model identifier. -/
theorem fallbackCategory_model (text : Str) :
    (fallbackCategoryClassification text).model = "fallback-keywords".toList := by
  unfold fallbackCategoryClassification
  dsimp only
  split_ifs <;> rfl

/-- The fallback category classifier's reasoning is always a string
value, so it always passes the response model's `str` validation. -/
theorem fallbackCategory_reasoning_isStr (text : Str) :
    pydanticStrOk (fallbackCategoryClassification text).category_reasoning
      = true := by
  unfold fallbackCategoryClassification
  dsimp only
  split_ifs <;> rfl

/-- The fallback category classifier's keywords are always the empty
list, so they always pass the response model's `List[str]` validation. -/
theorem fallbackCategory_keywords_ok (text : Str) :
    pydanticStrListOk (fallbackCategoryClassification text).keywords = true := by
  unfold fallbackCategoryClassification
  dsimp only
  split_ifs <;> rfl

/-- Soundness of `firstIdx`: the returned index holds `c` and no
earlier index does. -/
theorem firstIdx_spec (c : Char) (s : Str) :
    ∀ i, firstIdx c s = some i →
      s[i]? = some c ∧ ∀ k, k < i → s[k]? ≠ some c := by
  induction s with
  | nil => intro i h; simp [firstIdx] at h
  | cons x xs ih =>
      intro i h
      simp only [firstIdx] at h
      split_ifs at h with hx
      · obtain rfl : (0 : ℕ) = i := Option.some.inj h
        refine ⟨by simp [hx], ?_⟩
        intro k hk
        omega
      · obtain ⟨a, ha, rfl⟩ := Option.map_eq_some'.mp h
        obtain ⟨h1, h2⟩ := ih a ha
        refine ⟨by simpa using h1, ?_⟩
        intro k hk
        cases k with
        | zero => simpa using hx
        | succ k =>
            have hk' : k < a := by omega
            simpa using h2 k hk'

/-- `firstIdx` finds every character that occurs in the string. -/
theorem firstIdx_isSome_of_mem {c : Char} {s : Str} (h : c ∈ s) :
    ∃ i, firstIdx c s = some i := by
  induction s with
  | nil => simp at h
  | cons x xs ih =>
      by_cases hx : x = c
      · exact ⟨0, by simp [firstIdx, hx]⟩
      · have hmem : c ∈ xs := by
          rcases List.mem_cons.mp h with h1 | h1
          · exact absurd h1.symm hx
          · exact h1
        obtain ⟨i, hi⟩ := ih hmem
        exact ⟨i + 1, by simp [firstIdx, hx, hi]⟩

/-- When `lastIdx` finds nothing, the character occurs nowhere. -/
theorem lastIdx_none_spec (c : Char) (s : Str) (h : lastIdx c s = none) :
    ∀ k : ℕ, s[k]? ≠ some c := by
  induction s with
  | nil => intro k; simp
  | cons x xs ih =>
      have hxs : lastIdx c xs = none := by
        cases hL : lastIdx c xs with
        | some i => simp [lastIdx, hL] at h
        | none => rfl
      have hx : ¬ x = c := by
        intro hx
        simp [lastIdx, hxs, hx] at h
      intro k
      cases k with
      | zero => simpa using hx
      | succ k => simpa using ih hxs k

/-- Soundness of `lastIdx`: the returned index holds `c` and no later
index does. -/
theorem lastIdx_spec (c : Char) (s : Str) :
    ∀ j, lastIdx c s = some j →
      s[j]? = some c ∧ ∀ k, j < k → s[k]? ≠ some c := by
  induction s with
  | nil => intro j h; simp [lastIdx] at h
  | cons x xs ih =>
      intro j h
      cases hL : lastIdx c xs with
      | some i =>
          have hj : i + 1 = j := by
            simpa [lastIdx, hL] using h
          subst hj
          obtain ⟨h1, h2⟩ := ih i hL
          refine ⟨by simpa using h1, ?_⟩
          intro k hk
          cases k with
          | zero => omega
          | succ k =>
              have hk' : i < k := by omega
              simpa using h2 k hk'
      | none =>
          have hx : x = c := by
            by_contra hx
            simp [lastIdx, hL, hx] at h
          have hj : (0 : ℕ) = j := by
            simpa [lastIdx, hL, hx] using h
          subst hj
          refine ⟨by simp [hx], ?_⟩
          intro k hk
          cases k with
          | zero => omega
          | succ k => simpa using lastIdx_none_spec c xs hL k

/-- `lastIdx` finds every character that occurs in the string. -/
theorem lastIdx_isSome_of_mem {c : Char} {s : Str} (h : c ∈ s) :
    ∃ j, lastIdx c s = some j := by
  induction s with
  | nil => simp at h
  | cons x xs ih =>
      cases hL : lastIdx c xs with
      | some i => exact ⟨i + 1, by simp [lastIdx, hL]⟩
      | none =>
          rcases List.mem_cons.mp h with h1 | h1
          · exact ⟨0, by simp [lastIdx, hL, h1.symm]⟩
          · obtain ⟨i, hi⟩ := ih h1
            rw [hi] at hL
            exact absurd hL (by simp)

/-- Python's first-maximal-key-wins `max` over the three scores equals
the symmetric maximum. -/
theorem pyMax3_eq (t b c : ℕ) :
    (if t < b then (if b < c then c else b)
     else (if t < c then c else t)) = max t (max b c) := by
  split_ifs <;> omega

/-- The first-maximal-key-wins winner agrees with the priority-order
(Técnico, then Facturación, then Comercial) description. -/
theorem pyArgmax3_eq (t b c : ℕ) :
    (if t < b then
       (if b < c then ("Comercial".toList : Str) else "Facturación".toList)
     else (if t < c then "Comercial".toList else "Técnico".toList)) =
      (if b ≤ t ∧ c ≤ t then ("Técnico".toList : Str)
       else if c ≤ b then "Facturación".toList
       else "Comercial".toList) := by
  split_ifs <;> first | rfl | omega

/-- C5: the keyword fallback category classifier is deterministic and
total (a Lean function); it lower-cases the input, counts keyword
matches per category, picks the highest count with ties broken in
declaration order Técnico, Facturación, Comercial; a zero maximum
yields Comercial with confidence 0.5, otherwise confidence is
`min(0.6 + 0.1·matches, 0.85)`; the confidence always lies in
[0.5, 0.85] and the category is always in the closed taxonomy. -/
theorem c5_fallback_classifier (text : Str) :
    (fallbackCategoryClassification text).category ∈ categoryTaxonomy ∧
    (fallbackCategoryClassification text).confidence =
      (if maxScoreOf text = 0 then 0.5
       else min (0.6 + (maxScoreOf text : ℚ) * 0.1) 0.85) ∧
    1/2 ≤ (fallbackCategoryClassification text).confidence ∧
    (fallbackCategoryClassification text).confidence ≤ 0.85 ∧
    (fallbackCategoryClassification text).category =
      (if maxScoreOf text = 0 then "Comercial".toList
       else if billingScoreOf text ≤ techScoreOf text ∧
              commercialScoreOf text ≤ techScoreOf text then "Técnico".toList
       else if commercialScoreOf text ≤ billingScoreOf text then
         "Facturación".toList
       else "Comercial".toList) ∧
    (fallbackCategoryClassification text).model = "fallback-keywords".toList := by
  have hb := fallbackCategory_confidence_bounds text
  refine ⟨?_, ?_, hb.1, hb.2, ?_, fallbackCategory_model text⟩
  · unfold fallbackCategoryClassification
    dsimp only
    split_ifs <;> (dsimp only; decide)
  · unfold fallbackCategoryClassification maxScoreOf techScoreOf
      billingScoreOf commercialScoreOf
    dsimp only
    simp only [pyMax3_eq]
    split_ifs <;> rfl
  · unfold fallbackCategoryClassification maxScoreOf techScoreOf
      billingScoreOf commercialScoreOf
    dsimp only
    simp only [pyMax3_eq, pyArgmax3_eq]
    split_ifs <;> rfl

/-- C9: a model-identifier string longer than 200 characters is sent to
storage as its first 197 characters followed by the 3-character marker
`"..."` (exactly 200 characters); a string of length at most 200 passes
through unchanged. -/
theorem c9_model_identifier_truncation (s : Str) :
    (200 < s.length →
      truncateLlmModel s = s.take 197 ++ "...".toList ∧
        (truncateLlmModel s).length = 200) ∧
    (s.length ≤ 200 → truncateLlmModel s = s) := by
  constructor
  · intro h
    refine ⟨by rw [truncateLlmModel, if_pos h], ?_⟩
    rw [truncateLlmModel, if_pos h]
    simp only [List.length_append, List.length_take]
    have h3 : ("...".toList : Str).length = 3 := by decide
    rw [h3]
    omega
  · intro h
    rw [truncateLlmModel, if_neg (by omega)]

/-- Witness for C9 at a 300-character identifier and at the default
configured model identifier. -/
theorem c9_witness :
    (truncateLlmModel (List.replicate 300 'x') =
        (List.replicate 300 'x').take 197 ++ "...".toList ∧
      (truncateLlmModel (List.replicate 300 'x')).length = 200) ∧
    truncateLlmModel ("llama-3.1-8b-instant".toList) =
      "llama-3.1-8b-instant".toList :=
  ⟨(c9_model_identifier_truncation (List.replicate 300 'x')).1
      (by simp [List.length_replicate]),
   (c9_model_identifier_truncation ("llama-3.1-8b-instant".toList)).2
      (by decide)⟩

/-- C10: the sentiment stage applies the external classifier to the
512-character prefix of the text only, so two texts that agree on their
first 512 characters receive the same sentiment label and the same
confidence, whatever the pipeline computes (only the free-text
reasoning may differ). -/
theorem c10_sentiment_depends_on_512_prefix
    (pipe : Str → Option (List ScoredLabel)) (t1 t2 : Str)
    (h : t1.take 512 = t2.take 512) :
    (analyzeSentiment pipe t1).sentiment
        = (analyzeSentiment pipe t2).sentiment ∧
      (analyzeSentiment pipe t1).confidence
        = (analyzeSentiment pipe t2).confidence := by
  unfold analyzeSentiment
  rw [h]
  cases pipe (t2.take 512) with
  | none => exact ⟨rfl, rfl⟩
  | some l =>
      cases l with
      | nil => exact ⟨rfl, rfl⟩
      | cons x xs => exact ⟨rfl, rfl⟩

/-- Witness for C10: a 600-character text and a 520+16-character text
agreeing on the first 512 characters, under a pipeline whose score
depends on its input's length. -/
theorem c10_witness :
    (analyzeSentiment
        (fun s => some [⟨"NEGATIVE".toList, (s.length : ℚ) / 1000⟩])
        (List.replicate 600 'a')).sentiment
      = (analyzeSentiment
          (fun s => some [⟨"NEGATIVE".toList, (s.length : ℚ) / 1000⟩])
          (List.replicate 520 'a' ++ "problema urgente".toList)).sentiment ∧
    (analyzeSentiment
        (fun s => some [⟨"NEGATIVE".toList, (s.length : ℚ) / 1000⟩])
        (List.replicate 600 'a')).confidence
      = (analyzeSentiment
          (fun s => some [⟨"NEGATIVE".toList, (s.length : ℚ) / 1000⟩])
          (List.replicate 520 'a' ++ "problema urgente".toList)).confidence :=
  c10_sentiment_depends_on_512_prefix _ _ _ (by
    rw [List.take_append_of_le_length (by simp), List.take_replicate,
      List.take_replicate]
    norm_num)

/-- Counterexample to C6: `"Positivo"` is a sentiment-taxonomy member,
yet the sentiment mapping does not return it unchanged — it maps it to
`"Neutral"` (the `sentiment_map` keys are model labels such as
`"POSITIVE"`, not taxonomy members). -/
theorem c6_counterexample :
    sentimentMap ("Positivo".toList) = "Neutral".toList ∧
    ("Positivo".toList : Str) ∈ sentimentTaxonomy ∧
    ("Positivo".toList : Str) ≠ "Neutral".toList := by
  refine ⟨rfl, by decide, by decide⟩

/-- C6 (amended): category validation and sentiment mapping are total
and always return members of the closed taxonomies; category validation
returns an exact taxonomy match unchanged and replaces every other
string by `"Comercial"`; the sentiment mapping translates the eight
fixed model labels and maps every other string — including the taxonomy
members other than `"Neutral"` themselves — to `"Neutral"`. -/
theorem c6_validation_amended (s : Str) :
    validateCategory s ∈ categoryTaxonomy ∧
    sentimentMap s ∈ sentimentTaxonomy ∧
    (s ∈ categoryTaxonomy → validateCategory s = s) ∧
    (s ∉ categoryTaxonomy → validateCategory s = "Comercial".toList) ∧
    (s ∉ sentimentMapKeys → sentimentMap s = "Neutral".toList) := by
  refine ⟨?_, ?_, ?_, ?_, ?_⟩
  · unfold validateCategory
    split_ifs with h
    · exact h
    · decide
  · unfold sentimentMap
    split_ifs <;> decide
  · intro h
    rw [validateCategory, if_pos h]
  · intro h
    rw [validateCategory, if_neg h]
  · intro h
    unfold sentimentMap
    split_ifs with h1 h2 h3 h4 h5 h6 h7 h8
    all_goals first
      | rfl
      | (exfalso; apply h; subst_vars; decide)

/-- Witness for C6 (amended) at the off-taxonomy string `"Unknown"` and
the taxonomy member `"Técnico"`. -/
theorem c6_witness :
    validateCategory ("Técnico".toList) = "Técnico".toList ∧
    validateCategory ("Unknown".toList) = "Comercial".toList ∧
    sentimentMap ("Unknown".toList) = "Neutral".toList :=
  ⟨(c6_validation_amended ("Técnico".toList)).2.2.1 (by decide),
   (c6_validation_amended ("Unknown".toList)).2.2.2.1 (by decide),
   (c6_validation_amended ("Unknown".toList)).2.2.2.2 (by decide)⟩

/-- Counterexample to C2: on a description where the pipeline takes the
full fallback path (sentiment pipeline raises, category model call
fails), the positive keywords outnumber the negative ones 2–0, so the
spec's majority vote would say `"Positivo"` — but the code's fallback
sentiment is the fixed `"Neutral"`. -/
theorem c2_counterexample :
    (processTicket (fun _ => none) none ("excelente genial".toList)).sentiment
        = "Neutral".toList ∧
    specMajoritySentiment ("excelente genial".toList) = "Positivo".toList ∧
    ("Neutral".toList : Str) ≠ "Positivo".toList := by
  refine ⟨rfl, by decide, by decide⟩

/-- C2 (amended): the pipeline's fallback never recomputes sentiment by
keyword vote: when the sentiment stage fails the result is the fixed
`"Neutral"` with confidence 0.5 whatever the description says, and a
category-stage fallback leaves the sentiment-stage outcome untouched.
(The positive/negative keyword lists are only used by
`generateSentimentReasoning` to phrase the reasoning text on the
success path.) -/
theorem c2_fallback_sentiment_amended
    (pipe : Str → Option (List ScoredLabel)) (text : Str) :
    (analyzeSentiment (fun _ => none) text).sentiment = "Neutral".toList ∧
    (analyzeSentiment (fun _ => none) text).confidence = 1/2 ∧
    (processTicket pipe none text).sentiment
        = (analyzeSentiment pipe text).sentiment ∧
    (processTicket pipe none text).confidence
        = round3 ((fallbackCategoryClassification text).confidence * 0.6
            + (analyzeSentiment pipe text).confidence * 0.4) :=
  ⟨rfl, rfl, rfl, rfl⟩

/-- Counterexample to C1: with the external category model call failing
(here together with the local sentiment pipeline failing),
`process_ticket` still succeeds, but `models_used` is the two-element
list `[sentiment model, "fallback-keywords"]` — never the one-element
list `["fallback-keywords"]`. -/
theorem c1_counterexample :
    (processTicket (fun _ => none) none
        ("Mi internet no funciona".toList)).models_used
      ≠ ["fallback-keywords".toList] := by
  intro h
  have hlen : (processTicket (fun _ => none) none
      ("Mi internet no funciona".toList)).models_used.length = 2 := rfl
  rw [h] at hlen
  simp at hlen

/-- C1 (amended): when the external category model invocation fails in
any way, `process_ticket` still returns a successful classification
result whose `models_used` is the two-element list
`[sentiment-stage model identifier, "fallback-keywords"]` (so
`"fallback-keywords"` is its last element), and the request is still
surfaced as HTTP 200 provided storage succeeds and the sentiment-stage
confidence lies in [0, 1], as genuine pipeline scores do. -/
theorem c1_fallback_models_used_amended
    (pipe : Str → Option (List ScoredLabel)) (text : Str)
    (hconf : 0 ≤ (analyzeSentiment pipe text).confidence ∧
      (analyzeSentiment pipe text).confidence ≤ 1) :
    (processTicket pipe none text).models_used
      = [(analyzeSentiment pipe text).model, "fallback-keywords".toList] ∧
    RouteResult.status (processTicketRoute .found pipe none true text) = 200 := by
  have hc := fallbackCategory_confidence_bounds text
  constructor
  · show [(analyzeSentiment pipe text).model,
      (fallbackCategoryClassification text).model] = _
    rw [fallbackCategory_model]
  · have hcomb : 0 ≤ (processTicket pipe none text).confidence ∧
        (processTicket pipe none text).confidence ≤ 1 := by
      have he : (processTicket pipe none text).confidence =
          round3 ((fallbackCategoryClassification text).confidence * 0.6
            + (analyzeSentiment pipe text).confidence * 0.4) := rfl
      rw [he]
      apply round3_mem_unit
      · nlinarith [hc.1, hc.2, hconf.1, hconf.2]
      · nlinarith [hc.1, hc.2, hconf.1, hconf.2]
    have hcr : pydanticStrOk (processTicket pipe none text).category_reasoning
        = true := fallbackCategory_reasoning_isStr text
    have hkw : pydanticStrListOk (processTicket pipe none text).keywords
        = true := fallbackCategory_keywords_ok text
    have hok : responseModelOk (processTicket pipe none text) = true := by
      unfold responseModelOk
      rw [decide_eq_true hcomb.1, decide_eq_true hcomb.2, hcr, hkw]
      rfl
    have hroute : processTicketRoute .found pipe none true text =
        if responseModelOk (processTicket pipe none text) = true
        then RouteResult.ok (processTicket pipe none text)
          (truncateLlmModel (truncateLlmModel
            (joinModelsUsed (processTicket pipe none text).models_used)))
        else .httpError 500 := rfl
    rw [hroute, if_pos hok]
    rfl

/-- Witness for C1 (amended) with both external stages failing on a
concrete description. -/
theorem c1_witness :
    (processTicket (fun _ => none) none ("hola".toList)).models_used
      = [(analyzeSentiment (fun _ => none) ("hola".toList)).model,
         "fallback-keywords".toList] ∧
    RouteResult.status
        (processTicketRoute .found (fun _ => none) none true ("hola".toList))
      = 200 :=
  c1_fallback_models_used_amended (fun _ => none) ("hola".toList)
    (by
      have h : (analyzeSentiment (fun _ => none) ("hola".toList)).confidence
          = 1/2 := rfl
      rw [h]
      norm_num)

/-- Counterexample to C3: a decoded payload with `confidence: 1.5`
passes through the validation step unclamped (the result's confidence
is 3/2, outside [0,1]), and a payload with the non-numeric
`confidence: null` aborts to the fallback classifier (model
`"fallback-keywords"`) instead of receiving the default 0.8. -/
theorem c3_counterexample :
    (classifyCategory
        (some ("\x7b\"category\": \"Técnico\", \"confidence\": 1.5\x7d".toList))
        ("Mi servicio".toList)).confidence = 3/2 ∧
    ¬((classifyCategory
        (some ("\x7b\"category\": \"Técnico\", \"confidence\": 1.5\x7d".toList))
        ("Mi servicio".toList)).confidence ≤ 1) ∧
    (classifyCategory (some ("\x7b\"confidence\": null\x7d".toList))
        ("Mi servicio".toList)).model = "fallback-keywords".toList := by
  have h : (classifyCategory
      (some ("\x7b\"category\": \"Técnico\", \"confidence\": 1.5\x7d".toList))
      ("Mi servicio".toList)).confidence
      = ((1 : ℕ) : ℚ) + ((5 : ℕ) : ℚ) / (10 : ℚ) ^ (1 : ℕ) := rfl
  refine ⟨by rw [h]; norm_num, by rw [h]; norm_num, rfl⟩

/-- C3 (amended): the validation step coerces `confidence` with
`float()` and no clamping — an absent key defaults to 0.8, a numeric
value passes through unchanged (even outside [0,1]), and a
non-coercible value (e.g. `null`) raises, aborting the whole payload to
the fallback path rather than defaulting; when the `keywords` key is
absent the validated payload's keywords are the empty list; any failure
of the content-processing path makes `classify_category` return the
fallback classification. -/
theorem c3_confidence_coercion_amended (fields : List (Str × JVal))
    (content : Str) (text : Str) :
    (getField fields ("confidence".toList) = none →
      (validatePayload fields).map (fun r => r.confidence) = some 0.8) ∧
    (∀ q : ℚ, getField fields ("confidence".toList) = some (.num q) →
      (validatePayload fields).map (fun r => r.confidence) = some q) ∧
    (getField fields ("confidence".toList) = some .null →
      validatePayload fields = none) ∧
    (getField fields ("keywords".toList) = none →
      (validatePayload fields).map (fun r => r.keywords)
        = (validatePayload fields).map (fun _ => JVal.arr [])) ∧
    (classifyFromContent content = none →
      classifyCategory (some content) text
        = fallbackCategoryClassification text) := by
  refine ⟨?_, ?_, ?_, ?_, ?_⟩
  · intro h
    unfold validatePayload
    rw [h]
    exact rfl
  · intro q h
    unfold validatePayload
    rw [h]
    exact rfl
  · intro h
    unfold validatePayload
    rw [h]
    exact rfl
  · intro hk
    unfold validatePayload
    rcases hpf : pyFloat ((getField fields ("confidence".toList)).getD
        (.num 0.8)) with _ | q
    · exact rfl
    · rw [hk]
      exact rfl
  · intro h
    show (classifyFromContent content).getD (fallbackCategoryClassification text)
        = fallbackCategoryClassification text
    rw [h, Option.getD_none]

/-- Witness for C3 (amended): the empty payload (defaults applied), a
`null` confidence (fallback abort), and unparsable content (fallback
classification). -/
theorem c3_witness :
    (validatePayload []).map (fun r => r.confidence) = some 0.8 ∧
    validatePayload [(("confidence".toList : Str), JVal.null)] = none ∧
    classifyCategory (some ("garbage!".toList)) ("hola tal".toList)
      = fallbackCategoryClassification ("hola tal".toList) :=
  ⟨(c3_confidence_coercion_amended [] [] []).1 rfl,
   (c3_confidence_coercion_amended [(("confidence".toList : Str), JVal.null)]
      [] []).2.2.1 rfl,
   (c3_confidence_coercion_amended [] ("garbage!".toList)
      ("hola tal".toList)).2.2.2.2 rfl⟩

/-- Counterexample to C4: with a category confidence of 1.5 (which the
unclamped coercion admits, see C3) and a sentiment confidence of 0.5,
the blended confidence is `round(1.5·0.6 + 0.5·0.4, 3) = 1.1`, outside
[0,1]. -/
theorem c4_counterexample :
    (processTicket (fun _ => some [⟨"NEUTRAL".toList, 1/2⟩])
        (some ("\x7b\"confidence\": 1.5\x7d".toList))
        ("Mi servicio".toList)).confidence = 11/10 ∧
    ¬((processTicket (fun _ => some [⟨"NEUTRAL".toList, 1/2⟩])
        (some ("\x7b\"confidence\": 1.5\x7d".toList))
        ("Mi servicio".toList)).confidence ≤ 1) := by
  have h : (processTicket (fun _ => some [⟨"NEUTRAL".toList, 1/2⟩])
      (some ("\x7b\"confidence\": 1.5\x7d".toList))
      ("Mi servicio".toList)).confidence
      = round3 ((((1 : ℕ) : ℚ) + ((5 : ℕ) : ℚ) / (10 : ℚ) ^ (1 : ℕ)) * 0.6
          + round3 (1/2) * 0.4) := rfl
  have h2 : round3 ((((1 : ℕ) : ℚ) + ((5 : ℕ) : ℚ) / (10 : ℚ) ^ (1 : ℕ)) * 0.6
      + round3 (1/2) * 0.4) = 11/10 := by
    rw [round3, round3, round_eq, round_eq]
    norm_num
  refine ⟨by rw [h, h2], by rw [h, h2]; norm_num⟩

/-- C4 (amended): the assembled result's confidence always equals
`round(0.6·c1 + 0.4·c2, 3)` for the two stage confidences `c1`, `c2`,
and it lies in [0,1] whenever both stage confidences do (the category
confidence may leave [0,1] because the coercion does not clamp). -/
theorem c4_confidence_blend_amended (pipe : Str → Option (List ScoredLabel))
    (llm : Option Str) (text : Str) :
    (processTicket pipe llm text).confidence
      = round3 ((classifyCategory llm text).confidence * 0.6
          + (analyzeSentiment pipe text).confidence * 0.4) ∧
    (0 ≤ (classifyCategory llm text).confidence →
      (classifyCategory llm text).confidence ≤ 1 →
      0 ≤ (analyzeSentiment pipe text).confidence →
      (analyzeSentiment pipe text).confidence ≤ 1 →
      0 ≤ (processTicket pipe llm text).confidence ∧
        (processTicket pipe llm text).confidence ≤ 1) := by
  refine ⟨rfl, ?_⟩
  intro h1 h2 h3 h4
  have he : (processTicket pipe llm text).confidence
      = round3 ((classifyCategory llm text).confidence * 0.6
          + (analyzeSentiment pipe text).confidence * 0.4) := rfl
  rw [he]
  exact round3_mem_unit (by nlinarith) (by nlinarith)

/-- Witness for C4 (amended) with both stages falling back on a
keyword-free description. -/
theorem c4_witness :
    0 ≤ (processTicket (fun _ => none) none ("buen dia".toList)).confidence ∧
      (processTicket (fun _ => none) none ("buen dia".toList)).confidence ≤ 1 :=
  (c4_confidence_blend_amended (fun _ => none) none ("buen dia".toList)).2
    (by rw [show (classifyCategory none ("buen dia".toList)).confidence
          = (0.5 : ℚ) from rfl]; norm_num)
    (by rw [show (classifyCategory none ("buen dia".toList)).confidence
          = (0.5 : ℚ) from rfl]; norm_num)
    (by rw [show (analyzeSentiment (fun _ => none)
          ("buen dia".toList)).confidence = (1/2 : ℚ) from rfl]; norm_num)
    (by rw [show (analyzeSentiment (fun _ => none)
          ("buen dia".toList)).confidence = (1/2 : ℚ) from rfl]; norm_num)

/-- C7: the response extractor selects the greedy span from the first
opening brace through the last closing brace whenever some closing
brace follows an opening brace; with no such brace pair it decodes the
entire text; and undecodable content (e.g. garbage with no braces)
yields a failed extraction that routes `classify_category` to the
keyword fallback instead of crashing or propagating. -/
theorem c7_extractor (content : Str) (text : Str) :
    ((∃ p q : ℕ, p < q ∧ content[p]? = some lbrace ∧
        content[q]? = some rbrace) →
      ∃ i j : ℕ, i < j ∧
        content[i]? = some lbrace ∧
        (∀ k : ℕ, k < i → content[k]? ≠ some lbrace) ∧
        content[j]? = some rbrace ∧
        (∀ k : ℕ, j < k → content[k]? ≠ some rbrace) ∧
        extractJsonCandidate content = (content.drop i).take (j - i + 1)) ∧
    ((∀ p q : ℕ, p < q →
        ¬(content[p]? = some lbrace ∧ content[q]? = some rbrace)) →
      extractJsonCandidate content = content) ∧
    jsonDecode ("garbage no braces".toList) = none ∧
    classifyCategory (some ("garbage no braces".toList)) text
      = fallbackCategoryClassification text := by
  refine ⟨?_, ?_, rfl, rfl⟩
  · rintro ⟨p, q, hpq, hp, hq⟩
    obtain ⟨i, hi⟩ := firstIdx_isSome_of_mem (List.getElem?_mem hp)
    obtain ⟨j, hj⟩ := lastIdx_isSome_of_mem (List.getElem?_mem hq)
    obtain ⟨hi1, hi2⟩ := firstIdx_spec lbrace content i hi
    obtain ⟨hj1, hj2⟩ := lastIdx_spec rbrace content j hj
    have hip : i ≤ p := by
      by_contra hcon
      exact hi2 p (by omega) hp
    have hqj : q ≤ j := by
      by_contra hcon
      exact hj2 q (by omega) hq
    have hij : i < j := by omega
    refine ⟨i, j, hij, hi1, hi2, hj1, hj2, ?_⟩
    unfold extractJsonCandidate
    simp only [hi, hj]
    rw [if_pos hij]
  · intro hno
    unfold extractJsonCandidate
    cases hfi : firstIdx lbrace content with
    | none => rfl
    | some i =>
        cases hla : lastIdx rbrace content with
        | none => simp only [hla]
        | some j =>
            obtain ⟨hi1, _⟩ := firstIdx_spec lbrace content i hfi
            obtain ⟨hj1, _⟩ := lastIdx_spec rbrace content j hla
            have hij : ¬ i < j := fun hlt => hno i j hlt ⟨hi1, hj1⟩
            simp only [hla]
            rw [if_neg hij]

/-- Witness for C7: a braced span embedded in prose, and brace-free
text passed through whole. -/
theorem c7_witness :
    (∃ i j : ℕ, i < j ∧
        ("ab\x7bc\x7dd".toList)[i]? = some lbrace ∧
        (∀ k : ℕ, k < i → ("ab\x7bc\x7dd".toList)[k]? ≠ some lbrace) ∧
        ("ab\x7bc\x7dd".toList)[j]? = some rbrace ∧
        (∀ k : ℕ, j < k → ("ab\x7bc\x7dd".toList)[k]? ≠ some rbrace) ∧
        extractJsonCandidate ("ab\x7bc\x7dd".toList)
          = (("ab\x7bc\x7dd".toList).drop i).take (j - i + 1)) ∧
    extractJsonCandidate ("sin llaves aqui".toList)
      = "sin llaves aqui".toList :=
  ⟨(c7_extractor ("ab\x7bc\x7dd".toList) []).1 ⟨2, 4, by norm_num, rfl, rfl⟩,
   (c7_extractor ("sin llaves aqui".toList) []).2.1
     (fun p q hpq hcontra =>
       absurd (List.getElem?_mem hcontra.1) (by decide))⟩

/-- Counterexample to C8: two requests whose storage reads and writes
all succeed and whose model call returns well-formed, successfully
parsed JSON still end in HTTP 500 — one with the out-of-range
`confidence: 2.0` (the response model rejects the unclamped blended
confidence 1.4), one with the in-range `confidence: 0.78` but a list
instead of a string in `category_reasoning` (the response model's
`str` field validation rejects it).  So not every classification-path
failure is absorbed into a successful response. -/
theorem c8_counterexample :
    RouteResult.status (processTicketRoute .found
        (fun _ => some [⟨"NEUTRAL".toList, 1/2⟩])
        (some ("\x7b\"category\": \"Técnico\", \"confidence\": 2.0\x7d".toList))
        true ("Mi servicio".toList)) = 500 ∧
    (classifyFromContent
        ("\x7b\"category\": \"Técnico\", \"confidence\": 2.0\x7d".toList)).isSome
      = true ∧
    RouteResult.status (processTicketRoute .found
        (fun _ => some [⟨"NEUTRAL".toList, 1/2⟩])
        (some ("\x7b\"category\": \"Técnico\", \"confidence\": 0.78, \"category_reasoning\": [\"a\"]\x7d".toList))
        true ("Mi servicio".toList)) = 500 ∧
    (classifyFromContent
        ("\x7b\"category\": \"Técnico\", \"confidence\": 0.78, \"category_reasoning\": [\"a\"]\x7d".toList)).isSome
      = true := by
  have h : (processTicket (fun _ => some [⟨"NEUTRAL".toList, 1/2⟩])
      (some ("\x7b\"category\": \"Técnico\", \"confidence\": 2.0\x7d".toList))
      ("Mi servicio".toList)).confidence
      = round3 ((((2 : ℕ) : ℚ) + ((0 : ℕ) : ℚ) / (10 : ℚ) ^ (1 : ℕ)) * 0.6
          + round3 (1/2) * 0.4) := rfl
  have h2 : round3 ((((2 : ℕ) : ℚ) + ((0 : ℕ) : ℚ) / (10 : ℚ) ^ (1 : ℕ)) * 0.6
      + round3 (1/2) * 0.4) = 7/5 := by
    rw [round3, round3, round_eq, round_eq]
    norm_num
  have hconf : ¬((processTicket (fun _ => some [⟨"NEUTRAL".toList, 1/2⟩])
      (some ("\x7b\"category\": \"Técnico\", \"confidence\": 2.0\x7d".toList))
      ("Mi servicio".toList)).confidence ≤ 1) := by
    rw [h, h2]
    norm_num
  have hcond : responseModelOk (processTicket
      (fun _ => some [⟨"NEUTRAL".toList, 1/2⟩])
      (some ("\x7b\"category\": \"Técnico\", \"confidence\": 2.0\x7d".toList))
      ("Mi servicio".toList)) = false := by
    unfold responseModelOk
    rw [decide_eq_false hconf]
    simp
  have hroute : processTicketRoute .found
      (fun _ => some [⟨"NEUTRAL".toList, 1/2⟩])
      (some ("\x7b\"category\": \"Técnico\", \"confidence\": 2.0\x7d".toList))
      true ("Mi servicio".toList)
      = if responseModelOk (processTicket
            (fun _ => some [⟨"NEUTRAL".toList, 1/2⟩])
            (some ("\x7b\"category\": \"Técnico\", \"confidence\": 2.0\x7d".toList))
            ("Mi servicio".toList)) = true
        then RouteResult.ok (processTicket (fun _ => some [⟨"NEUTRAL".toList, 1/2⟩])
            (some ("\x7b\"category\": \"Técnico\", \"confidence\": 2.0\x7d".toList))
            ("Mi servicio".toList))
          (truncateLlmModel (truncateLlmModel (joinModelsUsed
            (processTicket (fun _ => some [⟨"NEUTRAL".toList, 1/2⟩])
              (some ("\x7b\"category\": \"Técnico\", \"confidence\": 2.0\x7d".toList))
              ("Mi servicio".toList)).models_used)))
        else .httpError 500 := rfl
  have hcrB : (processTicket (fun _ => some [⟨"NEUTRAL".toList, 1/2⟩])
      (some ("\x7b\"category\": \"Técnico\", \"confidence\": 0.78, \"category_reasoning\": [\"a\"]\x7d".toList))
      ("Mi servicio".toList)).category_reasoning
      = JVal.arr [JVal.str ("a".toList)] := rfl
  have hcondB : responseModelOk (processTicket
      (fun _ => some [⟨"NEUTRAL".toList, 1/2⟩])
      (some ("\x7b\"category\": \"Técnico\", \"confidence\": 0.78, \"category_reasoning\": [\"a\"]\x7d".toList))
      ("Mi servicio".toList)) = false := by
    unfold responseModelOk
    rw [hcrB]
    simp [pydanticStrOk]
  have hrouteB : processTicketRoute .found
      (fun _ => some [⟨"NEUTRAL".toList, 1/2⟩])
      (some ("\x7b\"category\": \"Técnico\", \"confidence\": 0.78, \"category_reasoning\": [\"a\"]\x7d".toList))
      true ("Mi servicio".toList)
      = if responseModelOk (processTicket
            (fun _ => some [⟨"NEUTRAL".toList, 1/2⟩])
            (some ("\x7b\"category\": \"Técnico\", \"confidence\": 0.78, \"category_reasoning\": [\"a\"]\x7d".toList))
            ("Mi servicio".toList)) = true
        then RouteResult.ok (processTicket (fun _ => some [⟨"NEUTRAL".toList, 1/2⟩])
            (some ("\x7b\"category\": \"Técnico\", \"confidence\": 0.78, \"category_reasoning\": [\"a\"]\x7d".toList))
            ("Mi servicio".toList))
          (truncateLlmModel (truncateLlmModel (joinModelsUsed
            (processTicket (fun _ => some [⟨"NEUTRAL".toList, 1/2⟩])
              (some ("\x7b\"category\": \"Técnico\", \"confidence\": 0.78, \"category_reasoning\": [\"a\"]\x7d".toList))
              ("Mi servicio".toList)).models_used)))
        else .httpError 500 := rfl
  refine ⟨?_, rfl, ?_, rfl⟩
  · rw [hroute, if_neg (by rw [hcond]; simp)]
    rfl
  · rw [hrouteB, if_neg (by rw [hcondB]; simp)]
    rfl

/-- C8 (amended): a storage read error or a storage write error always
surfaces as HTTP 500 and is never converted into a fallback
classification; a classification-stage failure (e.g. the model call
raising) is absorbed and the request succeeds whenever the assembled
result passes the response-model validation (blended confidence in
[0,1], string `category_reasoning`, string-list `keywords`); and a 200
outcome requires both storage operations to have succeeded.  The
exception to the claimed dichotomy is a successfully parsed payload
that fails that validation — an out-of-range confidence admitted by
the unclamped coercion, a non-string reasoning, or non-string-list
keywords — which the response model turns into a 500 (see the
counterexample). -/
theorem c8_error_propagation_amended (getT : GetOutcome)
    (pipe : Str → Option (List ScoredLabel)) (llm : Option Str)
    (upd : Bool) (text : Str) :
    processTicketRoute .err pipe llm upd text = .httpError 500 ∧
    processTicketRoute .found pipe llm false text = .httpError 500 ∧
    (responseModelOk (processTicket pipe llm text) = true →
      processTicketRoute .found pipe llm true text
        = .ok (processTicket pipe llm text)
            (truncateLlmModel (truncateLlmModel (joinModelsUsed
              (processTicket pipe llm text).models_used)))) ∧
    (RouteResult.status (processTicketRoute getT pipe llm upd text) = 200 →
      getT = GetOutcome.found ∧ upd = true) := by
  refine ⟨rfl, rfl, ?_, ?_⟩
  · intro hok
    have hroute : processTicketRoute .found pipe llm true text
        = if responseModelOk (processTicket pipe llm text) = true
          then RouteResult.ok (processTicket pipe llm text)
            (truncateLlmModel (truncateLlmModel (joinModelsUsed
              (processTicket pipe llm text).models_used)))
          else .httpError 500 := rfl
    rw [hroute, if_pos hok]
  · cases getT with
    | err => intro hs; simp [processTicketRoute, RouteResult.status] at hs
    | notFound =>
        intro hs
        simp [processTicketRoute, RouteResult.status] at hs
    | found =>
        cases upd with
        | false =>
            intro hs
            simp [processTicketRoute, RouteResult.status] at hs
        | true => intro _; exact ⟨rfl, rfl⟩

/-- Witness for C8 (amended): with storage healthy and the model call
failing, the assembled result passes the response-model validation and
the request succeeds end to end. -/
theorem c8_witness :
    processTicketRoute .found (fun _ => none) none true ("buenos dias".toList)
      = .ok (processTicket (fun _ => none) none ("buenos dias".toList))
          (truncateLlmModel (truncateLlmModel (joinModelsUsed
            (processTicket (fun _ => none) none
              ("buenos dias".toList)).models_used))) ∧
    (GetOutcome.found = GetOutcome.found ∧ (true : Bool) = true) := by
  have happ := c8_error_propagation_amended .found (fun _ => none) none true
    ("buenos dias".toList)
  have h : (processTicket (fun _ => none) none
      ("buenos dias".toList)).confidence
      = round3 ((0.5 : ℚ) * 0.6 + 1/2 * 0.4) := rfl
  have h2 : round3 ((0.5 : ℚ) * 0.6 + 1/2 * 0.4) = 1/2 := by
    rw [round3, round_eq]
    norm_num
  have hc1 : 0 ≤ (processTicket (fun _ => none) none
      ("buenos dias".toList)).confidence := by
    rw [h, h2]
    norm_num
  have hc2 : (processTicket (fun _ => none) none
      ("buenos dias".toList)).confidence ≤ 1 := by
    rw [h, h2]
    norm_num
  have hcr : pydanticStrOk (processTicket (fun _ => none) none
      ("buenos dias".toList)).category_reasoning = true := rfl
  have hkw : pydanticStrListOk (processTicket (fun _ => none) none
      ("buenos dias".toList)).keywords = true := rfl
  have hok : responseModelOk (processTicket (fun _ => none) none
      ("buenos dias".toList)) = true := by
    unfold responseModelOk
    rw [decide_eq_true hc1, decide_eq_true hc2, hcr, hkw]
    rfl
  have h3 := happ.2.2.1 hok
  have h4 := happ.2.2.2 (by rw [h3]; rfl)
  exact ⟨h3, h4⟩

end TicketAI
